import Mathlib

/-!
# Verification of the danfojs-browser Series export facade

Shallow embedding of `src/danfojs-browser/src/core/series.ts` and of the
export collaborators it delegates to.  The facade itself only forwards:
`toCSV` calls `toCSVBrowser(this, options)`, `toJSON` calls
`toJSONBrowser(this, options)`, `toExcel` calls `toExcelBrowser(this, options)`
and `plot` constructs `new PlotlyLib(this, divId)`.  The bodies of the
collaborators (`danfojs-base/io/browser`, `danfojs-base/plotting`) are not part
of the sources, so they are modelled from the specification; the definitions
below say so in their doc comments.

JavaScript strings that the exporters build and split are modelled as
`List Char`; option records, the error kinds and the performed side effects
are explicit data.  Stateful behaviour (downloads, the engine-owned Series)
is modelled by threading an explicit `World` through every operation.
-/

/-- A primitive JavaScript value held in a Series cell. -/
inductive JSVal where
  | str (s : String)
  | num (n : Int)
  | boolean (b : Bool)
  deriving DecidableEq, Repr

/-- The one-dimensional labeled data container read by the export layer:
an ordered value sequence, an ordered label sequence and a column name
(spec section 3). -/
structure Series where
  values : List JSVal
  labels : List JSVal
  name : String
  deriving DecidableEq, Repr

/-- Modelled from the spec: the consistent, locale-independent stringification
of a cell value used when writing CSV and Excel cells (spec section 4.1,
"Non-text values must be stringified using a consistent, locale-independent
conversion"); the stringifier itself is not under src/. -/
def stringifyVal : JSVal → String
  | .str s => s
  | .num n => toString n
  | .boolean b => if b then "true" else "false"

/-- Options recognized by the CSV exporter with their defaults
(facade doc comment lines 65-68 and spec section 4.1). -/
structure CsvOptions where
  fileName : String
  download : Bool
  header : Bool
  sep : Char
  deriving DecidableEq, Repr

/-- Default CSV options: fileName "data.csv", download false, header true,
sep comma. -/
def defaultCsvOptions : CsvOptions := ⟨"data.csv", false, true, ','⟩

/-- Options recognized by the JSON exporter with their defaults
(facade doc comment lines 105-107 and spec section 4.2). -/
structure JsonOptions where
  fileName : String
  download : Bool
  format : String
  deriving DecidableEq, Repr

/-- Default JSON options: fileName "data.json", download false,
format "column". -/
def defaultJsonOptions : JsonOptions := ⟨"data.json", false, "column"⟩

/-- Options recognized by the browser Excel exporter
(facade doc comment lines 142-144 and spec section 4.3). -/
structure ExcelOptions where
  fileName : String
  sheetName : String
  deriving DecidableEq, Repr

/-- Default Excel options: fileName "output.xlsx", sheetName "Sheet1". -/
def defaultExcelOptions : ExcelOptions := ⟨"output.xlsx", "Sheet1"⟩

/-- The structured representation produced by the JSON exporter: a
column-format object (association list with the column name as key) or a
row-format array of single-key objects. -/
inductive JsonOut where
  | column (o : List (String × List JSVal))
  | row (rs : List (List (String × JSVal)))
  deriving DecidableEq, Repr

/-- Error kinds of the export layer (spec section 7). -/
inductive ExportError where
  | invalidOption (msg : String)
  | ioFailure (msg : String)
  deriving DecidableEq, Repr

/-- A workbook sheet written by the Excel exporter: the sheet name and the
single column of cells, header cell first (spec section 4.3). -/
structure Sheet where
  sheetName : String
  cells : List String
  deriving DecidableEq, Repr

/-- A side effect performed by an exporter: a browser file-save of text,
of serialized JSON, or of a single-sheet workbook. -/
inductive Effect where
  | downloadText (fileName : String) (content : List Char)
  | downloadJson (fileName : String) (content : JsonOut)
  | downloadWorkbook (fileName : String) (sheet : Sheet)
  deriving DecidableEq, Repr

/-- The explicit state threaded through every operation: the engine-owned
Series, the mount points existing in the rendering surface, whether the
platform save primitive is able to complete, and the log of performed side
effects. -/
structure World where
  series : Series
  mounts : List String
  ioOk : Bool
  effects : List Effect
  deriving DecidableEq, Repr

/-- Modelled from the spec: the lines built by `toCSVBrowser`
(danfojs-base/io/browser, not under src/).  Spec section 4.1: one line per
value using the index-ordered value sequence; if `header` is true, a line
containing the column name is prepended. -/
def toCSVLines (S : Series) (header : Bool) : List (List Char) :=
  (if header then [S.name.data] else []) ++ S.values.map (fun v => (stringifyVal v).data)

/-- Modelled from the spec: the CSV text, the lines joined by the newline
character, matching the concrete scenario of spec section 8 where the default
export of values 1,2,3,4 under column name "0" is the text 0-newline-1-...-4.
For a Series every line holds a single field, so the field separator `sep`
does not occur inside a line built from separator-free values. -/
def toCSVText (S : Series) (header : Bool) : List Char :=
  List.intercalate ['\n'] (toCSVLines S header)

/-- Modelled from the spec: `toCSVBrowser` (danfojs-base/io/browser, not under
src/), the target of the facade delegation at series.ts line 98.  Spec
section 4.1: when `download` is false the CSV text is returned; when
`download` is true nothing is returned and a browser file-save of the text is
triggered under `fileName`. -/
def toCSVBrowser (w : World) (opts : CsvOptions) : Option (List Char) × World :=
  let text := toCSVText w.series opts.header
  if opts.download then
    (none, ⟨w.series, w.mounts, w.ioOk, w.effects ++ [.downloadText opts.fileName text]⟩)
  else
    (some text, w)

/-- Modelled from the spec: the column-format encoding (spec section 4.2), a
single object whose one key is the column name and whose value is the ordered
array of Series values. -/
def columnEncode (S : Series) : List (String × List JSVal) :=
  [(S.name, S.values)]

/-- Modelled from the spec: the row-format encoding (spec section 4.2), an
array of single-key objects, one per value in index order, each keyed by the
column name. -/
def rowEncode (S : Series) : List (List (String × JSVal)) :=
  S.values.map (fun v => [(S.name, v)])

/-- Modelled from the spec: `toJSONBrowser` (danfojs-base/io/browser, not
under src/), the target of the facade delegation at series.ts line 135.
Spec sections 4.2 and 7: the `format` option is validated eagerly; a value
outside "column" and "row" fails with `InvalidOption` before any data is
touched; otherwise the encoding is returned when `download` is false and
saved under `fileName` (returning nothing) when `download` is true. -/
def toJSONBrowser (w : World) (opts : JsonOptions) :
    Except ExportError (Option JsonOut) × World :=
  if opts.format = "column" then
    let out := JsonOut.column (columnEncode w.series)
    if opts.download then
      (.ok none, ⟨w.series, w.mounts, w.ioOk, w.effects ++ [.downloadJson opts.fileName out]⟩)
    else
      (.ok (some out), w)
  else if opts.format = "row" then
    let out := JsonOut.row (rowEncode w.series)
    if opts.download then
      (.ok none, ⟨w.series, w.mounts, w.ioOk, w.effects ++ [.downloadJson opts.fileName out]⟩)
    else
      (.ok (some out), w)
  else
    (.error (.invalidOption "format"), w)

/-- Modelled from the spec: the single-column sheet written by the Excel
exporter (spec section 4.3), the column name as header cell with the
stringified values below it in index order. -/
def excelSheet (S : Series) (sheetName : String) : Sheet :=
  ⟨sheetName, S.name :: S.values.map stringifyVal⟩

/-- Modelled from the spec: `toExcelBrowser` (danfojs-base/io/browser, not
under src/), the target of the facade delegation at series.ts line 166.
Spec section 4.3: always a side effect, never a representation; when the
platform save primitive cannot complete the failure surfaces as `IOFailure`
rather than being swallowed. -/
def toExcelBrowser (w : World) (opts : ExcelOptions) :
    Except ExportError Unit × World :=
  if w.ioOk then
    (.ok (), ⟨w.series, w.mounts, w.ioOk,
      w.effects ++ [.downloadWorkbook opts.fileName (excelSheet w.series opts.sheetName)]⟩)
  else
    (.error (.ioFailure "save failed"), w)

/-- Modelled from the spec: the chart-session object constructed by the
charting collaborator (danfojs-base/plotting, not under src/); it only binds
the Series and the mount identifier (spec section 4.4). -/
structure PlotlyLib where
  series : Series
  divId : String
  deriving DecidableEq, Repr

/-- The facade `plot` (series.ts lines 56-59): it constructs
`new PlotlyLib(this, divId)` and returns it; nothing else happens. -/
def plot (w : World) (divId : String) : PlotlyLib × World :=
  (⟨w.series, divId⟩, w)

/-- Modelled from the spec: the auto-generated numeric labels used when a
Series is constructed without an explicit index (facade doc comment
line 40). -/
def autoLabels (n : Nat) : List JSVal :=
  (List.range n).map (fun i => .num i)

/-- Modelled from the spec: reconstructing a Series from column-format JSON
output, the inverse direction of the round-trip of spec section 8; the single
key becomes the column name, its array the value sequence, and labels are
auto-generated. -/
def seriesFromColumnJSON (o : List (String × List JSVal)) : Series :=
  match o with
  | [(n, vals)] => ⟨vals, autoLabels vals.length, n⟩
  | _ => ⟨[], [], "0"⟩

/-- A TypeScript return type as written in the facade's signatures. -/
inductive TSType where
  | stringT
  | objectT
  | voidT
  | unionT (a b : TSType)
  deriving DecidableEq, Repr

/-- Whether a TypeScript type admits the void outcome. -/
def includesVoid : TSType → Bool
  | .voidT => true
  | .unionT a b => includesVoid a || includesVoid b
  | _ => false

/-- The public overload of `toCSV` (series.ts line 96) declares return type
`string`. -/
def toCSVPublicReturnType : TSType := .stringT

/-- The implementation signature of `toCSV` (series.ts line 97) is
`string | void`. -/
def toCSVImplReturnType : TSType := .unionT .stringT .voidT

/-- The public overload of `toJSON` (series.ts line 133) declares return type
`object`. -/
def toJSONPublicReturnType : TSType := .objectT

/-- The implementation signature of `toJSON` (series.ts line 134) is
`object | void`. -/
def toJSONImplReturnType : TSType := .unionT .objectT .voidT

/-- The signature of `toExcel` (series.ts line 165) declares return type
`void`. -/
def toExcelReturnType : TSType := .voidT

/-- Concrete two-value Series used by counterexamples and witnesses. -/
def exSeries : Series := ⟨[.num 1, .num 2], autoLabels 2, "0"⟩

/-- Concrete world holding `exSeries`, one mount point, a working platform
and no performed effects. -/
def exWorld : World := ⟨exSeries, ["plotDiv"], true, []⟩

/-- CSV options requesting no header and no download, with the default
separator. -/
def exCsvNoHeader : CsvOptions := ⟨"data.csv", false, false, ','⟩

/-- Example JSON options requesting row format without download. -/
def exJsonRow : JsonOptions := ⟨"data.json", false, "row"⟩

/-- Example JSON options requesting the unrecognized format "xml". -/
def exJsonXml : JsonOptions := ⟨"data.json", false, "xml"⟩

/-- Example CSV options requesting a download with defaults otherwise. -/
def exCsvDl : CsvOptions := ⟨"data.csv", true, true, ','⟩

/-- Example JSON options requesting a download in column format. -/
def exJsonDl : JsonOptions := ⟨"data.json", true, "column"⟩

/-- Example world identical to `exWorld` except that no mount point exists. -/
def exWorldNoMount : World := ⟨exSeries, [], true, []⟩

/-- C1 counterexample: for the two-value Series under header:false the CSV text
is the two lines "1" and "2" joined by a newline; splitting that text on the
separator sep = ',' yields one piece, not S.length = 2, so the claimed
equation `toCSV(S, \x7bheader:false\x7d).split(sep).length = S.length` fails. -/
theorem toCSV_split_on_sep_counterexample :
    (toCSVBrowser exWorld exCsvNoHeader).1 = some (toCSVText exSeries false) ∧
    ((toCSVText exSeries false).splitOn exCsvNoHeader.sep).length ≠ exSeries.values.length := by
  constructor
  · rfl
  · decide

/-- C1 (amended): toCSV builds exactly one line per value of S in index order;
header true (the default) prepends a line containing S's column name and
header false yields no header line; and for every nonempty S whose
stringified values contain no newline, splitting the header-less CSV text on
the line separator newline (not on the field separator sep) yields exactly
the value lines, so its length equals S.length. -/
theorem toCSV_one_line_per_value (w : World) (opts : CsvOptions)
    (hdl : opts.download = false) (hne : w.series.values ≠ [])
    (hnl : ∀ v ∈ w.series.values, '\n' ∉ (stringifyVal v).data) :
    defaultCsvOptions.header = true ∧
    (toCSVBrowser w opts).1 = some (toCSVText w.series opts.header) ∧
    toCSVLines w.series true =
      w.series.name.data :: w.series.values.map (fun v => (stringifyVal v).data) ∧
    toCSVLines w.series false = w.series.values.map (fun v => (stringifyVal v).data) ∧
    (toCSVText w.series false).splitOn '\n' =
      w.series.values.map (fun v => (stringifyVal v).data) ∧
    ((toCSVText w.series false).splitOn '\n').length = w.series.values.length := by
  have hlines : toCSVLines w.series false =
      w.series.values.map (fun v => (stringifyVal v).data) := by
    simp [toCSVLines]
  have hx : ∀ l ∈ toCSVLines w.series false, '\n' ∉ l := by
    rw [hlines]
    intro l hl
    obtain ⟨v, hv, rfl⟩ := List.mem_map.mp hl
    exact hnl v hv
  have hls : toCSVLines w.series false ≠ [] := by
    rw [hlines]
    simpa using hne
  have hsplit : (toCSVText w.series false).splitOn '\n' =
      w.series.values.map (fun v => (stringifyVal v).data) := by
    rw [toCSVText, List.splitOn_intercalate _ '\n' hx hls, hlines]
  refine ⟨rfl, ?_, ?_, hlines, hsplit, ?_⟩
  · simp [toCSVBrowser, hdl]
  · simp [toCSVLines]
  · rw [hsplit, List.length_map]

/-- C1 witness: the amended theorem applied to the concrete two-value Series. -/
theorem toCSV_one_line_per_value_witness :
    defaultCsvOptions.header = true ∧
    (toCSVBrowser exWorld exCsvNoHeader).1 =
      some (toCSVText exWorld.series exCsvNoHeader.header) ∧
    toCSVLines exWorld.series true =
      exWorld.series.name.data ::
        exWorld.series.values.map (fun v => (stringifyVal v).data) ∧
    toCSVLines exWorld.series false =
      exWorld.series.values.map (fun v => (stringifyVal v).data) ∧
    (toCSVText exWorld.series false).splitOn '\n' =
      exWorld.series.values.map (fun v => (stringifyVal v).data) ∧
    ((toCSVText exWorld.series false).splitOn '\n').length =
      exWorld.series.values.length :=
  toCSV_one_line_per_value exWorld exCsvNoHeader rfl (by decide) (by decide)

/-- C2: in column format without download, toJSON returns a single object whose
one key is the column name mapped to the ordered value array (labels
omitted), and reconstructing a Series from that output recovers the same
ordered value sequence. -/
theorem toJSON_column_single_key_roundtrip (w : World) (opts : JsonOptions)
    (hf : opts.format = "column") (hdl : opts.download = false) :
    (toJSONBrowser w opts).1 =
      .ok (some (.column [(w.series.name, w.series.values)])) ∧
    (columnEncode w.series).length = 1 ∧
    (columnEncode w.series).map Prod.fst = [w.series.name] ∧
    (seriesFromColumnJSON (columnEncode w.series)).values = w.series.values := by
  refine ⟨?_, rfl, rfl, rfl⟩
  simp [toJSONBrowser, hf, hdl, columnEncode]

/-- C2 witness: the column round-trip at the concrete two-value Series under
the default options. -/
theorem toJSON_column_single_key_roundtrip_witness :
    (toJSONBrowser exWorld defaultJsonOptions).1 =
      .ok (some (.column [(exWorld.series.name, exWorld.series.values)])) ∧
    (columnEncode exWorld.series).length = 1 ∧
    (columnEncode exWorld.series).map Prod.fst = [exWorld.series.name] ∧
    (seriesFromColumnJSON (columnEncode exWorld.series)).values =
      exWorld.series.values :=
  toJSON_column_single_key_roundtrip exWorld defaultJsonOptions rfl rfl

/-- C3: in row format without download, toJSON returns an array with exactly
one object per value in index order, each object holding the single key equal
to the column name with that value as its entry. -/
theorem toJSON_row_one_object_per_value (w : World) (opts : JsonOptions)
    (hf : opts.format = "row") (hdl : opts.download = false) :
    (toJSONBrowser w opts).1 = .ok (some (.row (rowEncode w.series))) ∧
    rowEncode w.series = w.series.values.map (fun v => [(w.series.name, v)]) ∧
    (rowEncode w.series).length = w.series.values.length ∧
    ∀ r ∈ rowEncode w.series, ∃ v ∈ w.series.values, r = [(w.series.name, v)] := by
  refine ⟨?_, rfl, by simp [rowEncode], ?_⟩
  · simp [toJSONBrowser, hf, hdl]
  · intro r hr
    obtain ⟨v, hv, rfl⟩ := List.mem_map.mp hr
    exact ⟨v, hv, rfl⟩

/-- C3 witness: the row encoding at the concrete two-value Series. -/
theorem toJSON_row_one_object_per_value_witness :
    (toJSONBrowser exWorld exJsonRow).1 = .ok (some (.row (rowEncode exWorld.series))) ∧
    rowEncode exWorld.series =
      exWorld.series.values.map (fun v => [(exWorld.series.name, v)]) ∧
    (rowEncode exWorld.series).length = exWorld.series.values.length ∧
    ∀ r ∈ rowEncode exWorld.series,
      ∃ v ∈ exWorld.series.values, r = [(exWorld.series.name, v)] :=
  toJSON_row_one_object_per_value exWorld exJsonRow rfl rfl

/-- C4: for any format outside "column" and "row", toJSON fails with the
InvalidOption error, returns no output, and leaves the world unchanged: no
side effect is performed and no default format is silently substituted. -/
theorem toJSON_invalid_format_fails (w : World) (opts : JsonOptions)
    (h1 : opts.format ≠ "column") (h2 : opts.format ≠ "row") :
    toJSONBrowser w opts = (.error (.invalidOption "format"), w) := by
  simp [toJSONBrowser, h1, h2]

/-- C4 witness: the format "xml" is rejected with InvalidOption and no
effect. -/
theorem toJSON_invalid_format_fails_witness :
    toJSONBrowser exWorld exJsonXml = (.error (.invalidOption "format"), exWorld) :=
  toJSON_invalid_format_fails exWorld exJsonXml (by decide) (by decide)

/-- C5: which result variant toCSV and toJSON produce is determined solely by
the download flag: with download false the textual or structured
representation is returned and the world is untouched; with download true
nothing is returned and exactly one browser file-save effect of the content
is appended under the configured fileName. -/
theorem export_variant_solely_download (w : World) (copts : CsvOptions)
    (jopts : JsonOptions) (hf : jopts.format = "column" ∨ jopts.format = "row") :
    toCSVBrowser w copts =
      (if copts.download then
        (none, ⟨w.series, w.mounts, w.ioOk,
          w.effects ++ [.downloadText copts.fileName (toCSVText w.series copts.header)]⟩)
      else
        (some (toCSVText w.series copts.header), w)) ∧
    ∃ out, toJSONBrowser w jopts =
      (if jopts.download then
        (.ok none, ⟨w.series, w.mounts, w.ioOk,
          w.effects ++ [.downloadJson jopts.fileName out]⟩)
      else
        (.ok (some out), w)) := by
  constructor
  · rfl
  · rcases hf with h | h
    · refine ⟨.column (columnEncode w.series), ?_⟩
      cases hd : jopts.download <;> simp [toJSONBrowser, h, hd]
    · refine ⟨.row (rowEncode w.series), ?_⟩
      cases hd : jopts.download <;> simp [toJSONBrowser, h, hd]

/-- C5 witness: the variant dichotomy at the concrete world under the default
CSV and JSON options. -/
theorem export_variant_solely_download_witness :
    toCSVBrowser exWorld defaultCsvOptions =
      (if defaultCsvOptions.download then
        (none, ⟨exWorld.series, exWorld.mounts, exWorld.ioOk,
          exWorld.effects ++ [.downloadText defaultCsvOptions.fileName
            (toCSVText exWorld.series defaultCsvOptions.header)]⟩)
      else
        (some (toCSVText exWorld.series defaultCsvOptions.header), exWorld)) ∧
    ∃ out, toJSONBrowser exWorld defaultJsonOptions =
      (if defaultJsonOptions.download then
        (.ok none, ⟨exWorld.series, exWorld.mounts, exWorld.ioOk,
          exWorld.effects ++ [.downloadJson defaultJsonOptions.fileName out]⟩)
      else
        (.ok (some out), exWorld)) :=
  export_variant_solely_download exWorld defaultCsvOptions defaultJsonOptions (Or.inl rfl)

/-- C6: toExcel never returns a representation (its success value is the unit
value, whatever the options); when the platform save primitive works, the
single written sheet carries the sheet name from the options and the column
name as header cell with the stringified values below it in index order;
when the save primitive cannot complete, the failure surfaces as IOFailure
and no effect is recorded. -/
theorem toExcel_void_sheet_and_iofailure (S : Series) (m : List String)
    (eff : List Effect) (opts : ExcelOptions) :
    toExcelBrowser ⟨S, m, true, eff⟩ opts =
      (.ok (), ⟨S, m, true,
        eff ++ [.downloadWorkbook opts.fileName (excelSheet S opts.sheetName)]⟩) ∧
    toExcelBrowser ⟨S, m, false, eff⟩ opts =
      (.error (.ioFailure "save failed"), ⟨S, m, false, eff⟩) ∧
    (excelSheet S opts.sheetName).sheetName = opts.sheetName ∧
    (excelSheet S opts.sheetName).cells = S.name :: S.values.map stringifyVal :=
  ⟨rfl, rfl, rfl, rfl⟩

/-- C7: with download false, toCSV and toJSON are pure: each call leaves the
world (and so the Series) unchanged, and a second call with the same options
from the state left by the first yields the same output. -/
theorem toCSV_toJSON_pure_when_not_download (w : World) (copts : CsvOptions)
    (jopts : JsonOptions) (hc : copts.download = false) (hj : jopts.download = false) :
    (toCSVBrowser w copts).2 = w ∧
    (toCSVBrowser ((toCSVBrowser w copts).2) copts).1 = (toCSVBrowser w copts).1 ∧
    (toJSONBrowser w jopts).2 = w ∧
    (toJSONBrowser ((toJSONBrowser w jopts).2) jopts).1 = (toJSONBrowser w jopts).1 := by
  have h1 : (toCSVBrowser w copts).2 = w := by
    simp [toCSVBrowser, hc]
  have h2 : (toJSONBrowser w jopts).2 = w := by
    by_cases hcol : jopts.format = "column"
    · simp [toJSONBrowser, hcol, hj]
    · by_cases hrow : jopts.format = "row"
      · simp [toJSONBrowser, hcol, hrow, hj]
      · simp [toJSONBrowser, hcol, hrow]
  exact ⟨h1, by rw [h1], h2, by rw [h2]⟩

/-- C7 witness: purity of the two exporters at the concrete world under the
default options. -/
theorem toCSV_toJSON_pure_when_not_download_witness :
    (toCSVBrowser exWorld defaultCsvOptions).2 = exWorld ∧
    (toCSVBrowser ((toCSVBrowser exWorld defaultCsvOptions).2) defaultCsvOptions).1 =
      (toCSVBrowser exWorld defaultCsvOptions).1 ∧
    (toJSONBrowser exWorld defaultJsonOptions).2 = exWorld ∧
    (toJSONBrowser ((toJSONBrowser exWorld defaultJsonOptions).2) defaultJsonOptions).1 =
      (toJSONBrowser exWorld defaultJsonOptions).1 :=
  toCSV_toJSON_pure_when_not_download exWorld defaultCsvOptions defaultJsonOptions rfl rfl

/-- C8: no export operation mutates the Series: whatever the options, the
Series in the world after toCSV, toJSON or toExcel is the one before, so its
value sequence, label sequence and column name are unchanged. -/
theorem export_never_mutates_series (w : World) (copts : CsvOptions)
    (jopts : JsonOptions) (eopts : ExcelOptions) :
    (toCSVBrowser w copts).2.series = w.series ∧
    (toJSONBrowser w jopts).2.series = w.series ∧
    (toExcelBrowser w eopts).2.series = w.series := by
  refine ⟨?_, ?_, ?_⟩
  · cases h : copts.download <;> simp [toCSVBrowser, h]
  · by_cases h1 : jopts.format = "column"
    · cases hd : jopts.download <;> simp [toJSONBrowser, h1, hd]
    · by_cases h2 : jopts.format = "row"
      · cases hd : jopts.download <;> simp [toJSONBrowser, h1, h2, hd]
      · simp [toJSONBrowser, h1, h2]
  · cases h : w.ioOk <;> simp [toExcelBrowser, h]

/-- C9: plot constructs and returns a chart session bound to the Series and
the given mount identifier, draws nothing (the world is unchanged), and
performs no validation of the mount point: the session is the same for any
second world carrying the same Series, whatever mount points it has, so plot
never fails immediately for a missing mount point. -/
theorem plot_binds_without_validation (w w' : World) (d : String)
    (hS : w.series = w'.series) :
    (plot w d).1.series = w.series ∧
    (plot w d).1.divId = d ∧
    (plot w d).2 = w ∧
    (plot w d).1 = (plot w' d).1 := by
  refine ⟨rfl, rfl, rfl, ?_⟩
  simp [plot, hS]

/-- C9 witness: plotting into "plotDiv" from the world where that mount point
exists and from the world where no mount point exists at all yields the same
session and changes nothing. -/
theorem plot_binds_without_validation_witness :
    (plot exWorld "plotDiv").1.series = exWorld.series ∧
    (plot exWorld "plotDiv").1.divId = "plotDiv" ∧
    (plot exWorld "plotDiv").2 = exWorld ∧
    (plot exWorld "plotDiv").1 = (plot exWorldNoMount "plotDiv").1 :=
  plot_binds_without_validation exWorld exWorldNoMount "plotDiv" rfl

/-- C10: with download true (and a recognized format for toJSON), toCSV and
toJSON return no representation at runtime, yet the facade's public overloads
declare the non-void return types string and object, so the void outcome of
the download path is invisible in the declared public types; only the
implementation signatures carry the void member. -/
theorem download_true_returns_no_representation (w : World) (copts : CsvOptions)
    (jopts : JsonOptions) (hc : copts.download = true) (hj : jopts.download = true)
    (hf : jopts.format = "column" ∨ jopts.format = "row") :
    (toCSVBrowser w copts).1 = none ∧
    (toJSONBrowser w jopts).1 = .ok none ∧
    toCSVPublicReturnType = TSType.stringT ∧
    toJSONPublicReturnType = TSType.objectT ∧
    includesVoid toCSVPublicReturnType = false ∧
    includesVoid toJSONPublicReturnType = false ∧
    includesVoid toCSVImplReturnType = true ∧
    includesVoid toJSONImplReturnType = true := by
  refine ⟨by simp [toCSVBrowser, hc], ?_, rfl, rfl, rfl, rfl, rfl, rfl⟩
  rcases hf with h | h <;> simp [toJSONBrowser, h, hj]

/-- C10 witness: the undeclared void outcome of the download path at the
concrete world. -/
theorem download_true_returns_no_representation_witness :
    (toCSVBrowser exWorld exCsvDl).1 = none ∧
    (toJSONBrowser exWorld exJsonDl).1 = .ok none ∧
    toCSVPublicReturnType = TSType.stringT ∧
    toJSONPublicReturnType = TSType.objectT ∧
    includesVoid toCSVPublicReturnType = false ∧
    includesVoid toJSONPublicReturnType = false ∧
    includesVoid toCSVImplReturnType = true ∧
    includesVoid toJSONImplReturnType = true :=
  download_true_returns_no_representation exWorld exCsvDl exJsonDl rfl rfl (Or.inl rfl)
